import Mathlib

/-!
Verification of the schema-translation and column-projection engine of the
ADW ELT staging pipeline (`staging_init.py`), as a shallow embedding in Lean.

The pure core (type mapping, column projection, per-table DDL and SELECT
construction) is embedded as Lean string functions.  The orchestrating
script (connect, per-table export loop, DDL loop, stage/load loop, cleanup)
is embedded as a trace-producing function over an abstract environment that
records which external operations succeed or fail; an uncaught exception
terminates the trace, mirroring Python control flow.
-/

namespace StagingInit

/-- Embedding of Python `str.lower()` for the ASCII identifiers used by the
script: lower-case every character of the string. -/
def pyLower (s : String) : String :=
  ⟨s.data.map Char.toLower⟩

/-- The fixed MSSQL-to-Snowflake type mapping table from `mssql_to_sf_type`
(`staging_init.py` lines 60-92), in source order. -/
def sfTypeMapping : List (String × String) :=
  [("int", "NUMBER"),
   ("bigint", "NUMBER"),
   ("smallint", "NUMBER"),
   ("tinyint", "NUMBER"),
   ("bit", "BOOLEAN"),
   ("varchar", "VARCHAR"),
   ("nvarchar", "VARCHAR"),
   ("char", "VARCHAR"),
   ("nchar", "VARCHAR"),
   ("text", "VARCHAR"),
   ("ntext", "VARCHAR"),
   ("datetime", "TIMESTAMP_NTZ"),
   ("datetime2", "TIMESTAMP_NTZ"),
   ("smalldatetime", "TIMESTAMP_NTZ"),
   ("date", "DATE"),
   ("time", "TIME"),
   ("float", "FLOAT"),
   ("real", "FLOAT"),
   ("decimal", "NUMBER"),
   ("numeric", "NUMBER"),
   ("money", "NUMBER"),
   ("smallmoney", "NUMBER"),
   ("uniqueidentifier", "VARCHAR"),
   ("xml", "VARCHAR"),
   ("sql_variant", "VARCHAR"),
   ("hierarchyid", "VARCHAR"),
   ("geometry", "VARCHAR"),
   ("geography", "VARCHAR"),
   ("image", "VARCHAR"),
   ("binary", "VARCHAR"),
   ("varbinary", "VARCHAR")]

/-- Embedding of `mssql_to_sf_type` (`staging_init.py` line 93):
`mapping.get(mssql_type.lower(), 'VARCHAR')`. -/
def mssql_to_sf_type (mssql_type : String) : String :=
  (sfTypeMapping.lookup (pyLower mssql_type)).getD "VARCHAR"

/-- The binary-family list tested first in `wrap_column_expr` (line 97). -/
def binaryFamilyTypes : List String :=
  ["image", "varbinary", "binary"]

/-- The opaque-structured / legacy-large-text list tested second in
`wrap_column_expr` (line 100). -/
def castFamilyTypes : List String :=
  ["xml", "sql_variant", "hierarchyid", "geometry", "geography", "text", "ntext"]

/-- Embedding of `wrap_column_expr` (`staging_init.py` lines 95-103). -/
def wrap_column_expr (col dtype : String) : String :=
  let d := pyLower dtype
  if d ∈ binaryFamilyTypes then
    "CONVERT(VARCHAR(MAX), [" ++ col ++ "], 1) AS [" ++ col ++ "]"
  else if d ∈ castFamilyTypes then
    "CAST([" ++ col ++ "] AS NVARCHAR(MAX)) AS [" ++ col ++ "]"
  else
    "[" ++ col ++ "]"

/-- Lowering an ASCII character twice is the same as lowering it once. -/
theorem char_toLower_idem (c : Char) : c.toLower.toLower = c.toLower := by
  unfold Char.toLower
  by_cases h : c.toNat ≥ 65 ∧ c.toNat ≤ 90
  · rw [if_pos h]
    have hv : (c.toNat + 32).isValidChar := Or.inl (by omega)
    have ht : (Char.ofNat (c.toNat + 32)).toNat = c.toNat + 32 := by
      rw [Char.ofNat, dif_pos hv]; rfl
    rw [if_neg]
    rw [ht]
    omega
  · rw [if_neg h, if_neg h]

/-- Lowering a list of characters is idempotent. -/
theorem map_toLower_idem (l : List Char) :
    (l.map Char.toLower).map Char.toLower = l.map Char.toLower := by
  induction l with
  | nil => rfl
  | cons c l ih => simp only [List.map_cons, ih, char_toLower_idem]

/-- `pyLower` is idempotent. -/
theorem pyLower_idem (s : String) : pyLower (pyLower s) = pyLower s := by
  unfold pyLower
  exact congrArg String.mk (map_toLower_idem s.data)

/-- The binary-family list and the cast-family list of `wrap_column_expr` are
disjoint, so the second branch is reached exactly on the cast-family types. -/
theorem cast_not_binary {d : String} (h : d ∈ castFamilyTypes) :
    d ∉ binaryFamilyTypes := by
  fin_cases h <;> decide

/-- One row of the column-metadata query result (`COLUMN_NAME`, `DATA_TYPE`). -/
structure Col where
  COLUMN_NAME : String
  DATA_TYPE : String

/-- Embedding of the per-column DDL definitions list built at
`staging_init.py` lines 119-122. -/
def columnDefs (cols : List Col) : List String :=
  cols.map fun c => "\"" ++ c.COLUMN_NAME ++ "\" " ++ mssql_to_sf_type c.DATA_TYPE

/-- Embedding of the Snowflake DDL string built at `staging_init.py`
line 123. -/
def ddlFor (sfSchema table : String) (cols : List Col) : String :=
  "CREATE OR REPLACE TABLE " ++ sfSchema ++ ".\"STG_ADW_" ++ table ++ "\" (\n  " ++
    String.intercalate ",\n  " (columnDefs cols) ++ "\n);"

/-- Embedding of the projection expression list built at `staging_init.py`
line 131. -/
def colExprs (cols : List Col) : List String :=
  cols.map fun c => wrap_column_expr c.COLUMN_NAME c.DATA_TYPE

/-- Embedding of the source-side SELECT built at `staging_init.py` line 133. -/
def selectFor (schema table : String) (cols : List Col) : String :=
  "SELECT " ++ String.intercalate ", " (colExprs cols) ++
    " FROM [" ++ schema ++ "].[" ++ table ++ "]"

/-- A discovered source table: one row of the catalog query
(`TABLE_SCHEMA`, `TABLE_NAME`). -/
structure TableId where
  schemaName : String
  tableName : String

/-- Embedding of `table_path` (`staging_init.py` line 141):
`os.path.join("./parquet_files", f"{schema}_{table}.parquet")`. -/
def tablePath (t : TableId) : String :=
  "./parquet_files/" ++ t.schemaName ++ "_" ++ t.tableName ++ ".parquet"

/-- Embedding of `full_table_name` (`staging_init.py` line 164), the load
target of the COPY command. -/
def fullTableName (db sch : String) (t : TableId) : String :=
  db ++ "." ++ sch ++ ".\"STG_ADW_" ++ t.tableName ++ "\""

/-- A projection expression is aliased to (or directly names) a column:
either it is the passthrough reference, or it ends in `AS [name]`. -/
def hasAlias (expr name : String) : Prop :=
  expr = "[" ++ name ++ "]" ∨ ∃ pre, expr = pre ++ " AS [" ++ name ++ "]"

/-- Every expression produced by `wrap_column_expr` is aliased to the
original column name. -/
theorem hasAlias_wrap (col dtype : String) :
    hasAlias (wrap_column_expr col dtype) col := by
  unfold hasAlias wrap_column_expr
  by_cases hb : pyLower dtype ∈ binaryFamilyTypes
  · rw [if_pos hb]
    exact Or.inr ⟨"CONVERT(VARCHAR(MAX), [" ++ col ++ "], 1)",
      by simp [String.append_assoc]⟩
  · rw [if_neg hb]
    by_cases hc : pyLower dtype ∈ castFamilyTypes
    · rw [if_pos hc]
      exact Or.inr ⟨"CAST([" ++ col ++ "] AS NVARCHAR(MAX))",
        by simp [String.append_assoc]⟩
    · rw [if_neg hc]
      exact Or.inl rfl

/-- Two strings with the same character data are equal. -/
theorem string_data_ext {a b : String} (h : a.data = b.data) : a = b := by
  cases a
  cases b
  exact congrArg String.mk h

/-- Exported file paths separate tables by schema: equal paths for tables
with the same table name force equal schema names. -/
theorem tablePath_inj {t1 t2 : TableId} (ht : t1.tableName = t2.tableName)
    (h : tablePath t1 = tablePath t2) : t1.schemaName = t2.schemaName := by
  unfold tablePath at h
  rw [ht] at h
  have hd := congrArg String.data h
  simp only [String.data_append] at hd
  exact string_data_ext
    (List.append_cancel_left
      (List.append_cancel_right (List.append_cancel_right
        (List.append_cancel_right hd))))

/-- Every type in the hex-encoding or wide-string-cast family of
`wrap_column_expr` is mapped to VARCHAR by the type-mapping table. -/
theorem lookup_family_varchar {d : String}
    (h : d ∈ binaryFamilyTypes ∨ d ∈ castFamilyTypes) :
    (sfTypeMapping.lookup d).getD "VARCHAR" = "VARCHAR" := by
  rcases h with h | h <;> fin_cases h <;> decide

/-- The Customers example column metadata from the spec scenario. -/
def customersCols : List Col :=
  [⟨"CustomerID", "int"⟩, ⟨"Name", "nvarchar"⟩, ⟨"Photo", "varbinary"⟩]

/-- Embedding of pandas `columns.duplicated()` with keep-first semantics, as
used at `staging_init.py` lines 137-138: collect the names at positions whose
name already occurred at an earlier position. -/
def dupColsAux (seen : List String) : List String → List String
  | [] => []
  | n :: rest =>
    if n ∈ seen then n :: dupColsAux seen rest else dupColsAux (n :: seen) rest

/-- `dup_cols` of `staging_init.py` line 138: the duplicated occurrences of
the exported row set's column names. -/
def dupCols (names : List String) : List String :=
  dupColsAux [] names

/-- Events of the per-table export tail (`staging_init.py` lines 136-143):
the duplicate-column warning print, then the parquet write. -/
inductive ExportEvent where
  | warnDuplicates (dups : List String)
  | writeParquet (path : String)
deriving DecidableEq

/-- The event sequence of `staging_init.py` lines 137-143 for a materialized
row set with the given column names: warn when `columns.duplicated().any()`,
then write the parquet file unconditionally. -/
def exportEvents (names : List String) (path : String) : List ExportEvent :=
  (if dupCols names = [] then []
   else [ExportEvent.warnDuplicates (dupCols names)]) ++
    [ExportEvent.writeParquet path]

/-- If the duplicate scan returns nothing, the names were distinct and none
of them was in the initial seen set. -/
theorem dupColsAux_nil_sound (seen names : List String)
    (h : dupColsAux seen names = []) :
    names.Nodup ∧ ∀ n ∈ names, n ∉ seen := by
  induction names generalizing seen with
  | nil => exact ⟨List.nodup_nil, by simp⟩
  | cons n rest ih =>
    unfold dupColsAux at h
    by_cases hm : n ∈ seen
    · rw [if_pos hm] at h
      exact absurd h (by simp)
    · rw [if_neg hm] at h
      obtain ⟨hnd, hall⟩ := ih (n :: seen) h
      refine ⟨List.nodup_cons.2
        ⟨fun hn => hall n hn (List.mem_cons_self n seen), hnd⟩, ?_⟩
      intro m hm2
      rcases List.mem_cons.1 hm2 with rfl | hm3
      · exact hm
      · exact fun hs => hall m hm3 (List.mem_cons_of_mem _ hs)

/-- A row set whose column names repeat always produces a nonempty duplicate
report. -/
theorem dupCols_ne_nil {names : List String} (h : ¬ names.Nodup) :
    dupCols names ≠ [] :=
  fun he => h (dupColsAux_nil_sound [] names he).1

/-- A per-table unit of work as the orchestrator sees it: the discovered
table, its column metadata, and which of its external operations succeed. -/
structure TableRun where
  id : TableId
  cols : List Col
  exportOk : Bool
  ddlOk : Bool
  putOk : Bool
  copyOk : Bool

/-- The whole-run environment: connection outcomes, Snowflake database and
schema configuration, and the discovered tables in catalog order. -/
structure Env where
  mssqlOk : Bool
  sfOk : Bool
  db : String
  sch : String
  tables : List TableRun

/-- Observable events of the script, in program order. -/
inductive Ev where
  | mssqlConnected
  | mssqlConnectFailed
  | exported (schema table : String)
  | exportRaised (schema table : String)
  | sfConnected
  | sfConnectFailed
  | ddlExecuted (ddl : String)
  | ddlRaised (ddl : String)
  | putDone (file : String)
  | putFailed (file : String)
  | copyDone (target : String)
  | copyFailed (target : String)
  | mssqlClosed
  | sfClosed
  | exitNonzero
  | crashed
deriving DecidableEq

/-- The per-table export loop (`staging_init.py` lines 108-143).  The loop
body has no try/except: a failing metadata query, data query, or file write
raises, so the loop stops at the first failing table and the uncaught
exception propagates (second component `false`). -/
def exportPhase : List TableRun → List Ev × Bool
  | [] => ([], true)
  | t :: rest =>
    if t.exportOk then
      let r := exportPhase rest
      (Ev.exported t.id.schemaName t.id.tableName :: r.1, r.2)
    else ([Ev.exportRaised t.id.schemaName t.id.tableName], false)

/-- The DDL loop (`staging_init.py` lines 154-156), over the statements
collected during the export loop — one per table, in discovery order, when
every export succeeded.  `sf_cursor.execute(ddl)` is not wrapped: a failing
DDL raises and the loop stops (second component `false`). -/
def ddlPhase (sch : String) : List TableRun → List Ev × Bool
  | [] => ([], true)
  | t :: rest =>
    if t.ddlOk then
      let r := ddlPhase sch rest
      (Ev.ddlExecuted (ddlFor sch t.id.tableName t.cols) :: r.1, r.2)
    else ([Ev.ddlRaised (ddlFor sch t.id.tableName t.cols)], false)

/-- The stage/load loop (`staging_init.py` lines 160-185): PUT and COPY are
each wrapped in try/except, a PUT failure skips that table's COPY via
`continue`, and the loop always proceeds to the next table. -/
def loadPhase (db sch : String) : List TableRun → List Ev
  | [] => []
  | t :: rest =>
    (if t.putOk then
      Ev.putDone (t.id.schemaName ++ "_" ++ t.id.tableName ++ ".parquet") ::
        (if t.copyOk then [Ev.copyDone (fullTableName db sch t.id)]
         else [Ev.copyFailed (fullTableName db sch t.id)])
     else [Ev.putFailed (t.id.schemaName ++ "_" ++ t.id.tableName ++ ".parquet")]) ++
      loadPhase db sch rest

/-- The whole script (`staging_init.py`): connect to MSSQL (exit 1 on
failure), run the export loop (an uncaught exception terminates the process),
connect to Snowflake (exit 1 on failure, without closing the MSSQL
connection), run the DDL loop (uncaught exception terminates), run the
stage/load loop, then close both connections (lines 189-193). -/
def run (e : Env) : List Ev :=
  if e.mssqlOk then
    let ex := exportPhase e.tables
    Ev.mssqlConnected :: ex.1 ++
      (if ex.2 then
        (if e.sfOk then
          let dd := ddlPhase e.sch e.tables
          Ev.sfConnected :: dd.1 ++
            (if dd.2 then
              loadPhase e.db e.sch e.tables ++ [Ev.mssqlClosed, Ev.sfClosed]
             else [Ev.crashed])
         else [Ev.sfConnectFailed, Ev.exitNonzero])
       else [Ev.crashed])
  else [Ev.mssqlConnectFailed, Ev.exitNonzero]

/-- Environment for the fault-isolation scenario of C5: table A healthy,
table B's export fails, everything else healthy. -/
def envC5 : Env :=
  ⟨true, true, "DB", "SCH",
   [⟨⟨"dbo", "A"⟩, [], true, true, true, true⟩,
    ⟨⟨"dbo", "B"⟩, [], false, true, true, true⟩]⟩

/-- Environment for the DDL fault-isolation scenario of C6: both exports
succeed, table A's DDL execution fails, table B fully healthy. -/
def envC6 : Env :=
  ⟨true, true, "DB", "SCH",
   [⟨⟨"dbo", "A"⟩, [], true, false, true, true⟩,
    ⟨⟨"dbo", "B"⟩, [], true, true, true, true⟩]⟩

/-- Environment for the connection-release scenario of C8: MSSQL connects,
Snowflake connection fails. -/
def envC8 : Env :=
  ⟨true, false, "DB", "SCH", [⟨⟨"dbo", "A"⟩, [], true, true, true, true⟩]⟩

/-- On a fully healthy run the script does close both connections at the
end, so the release defect of C8 is specific to the non-normal exit paths. -/
theorem run_success_closes :
    run ⟨true, true, "DB", "SCH", [⟨⟨"dbo", "A"⟩, [], true, true, true, true⟩]⟩ =
      [Ev.mssqlConnected, Ev.exported "dbo" "A", Ev.sfConnected,
       Ev.ddlExecuted (ddlFor "SCH" "A" []), Ev.putDone "dbo_A.parquet",
       Ev.copyDone (fullTableName "DB" "SCH" ⟨"dbo", "A"⟩),
       Ev.mssqlClosed, Ev.sfClosed] := by
  decide

end StagingInit

open StagingInit

/-- C1: for every column name `col` and source type `dtype`, matched
case-insensitively: a binary-family type (image, varbinary, binary) yields the
hex-conversion expression `CONVERT(VARCHAR(MAX), [col], 1) AS [col]` aliased to
the original column name; an opaque-structured or legacy-large-text type (xml,
sql_variant, hierarchyid, geometry, geography, text, ntext) yields the
wide-string cast `CAST([col] AS NVARCHAR(MAX)) AS [col]` aliased to the
original column name; every other type yields the passthrough `[col]`, so the
function never fails. -/
theorem claim_C1 (col dtype : String) :
    (pyLower dtype ∈ binaryFamilyTypes →
      wrap_column_expr col dtype =
        "CONVERT(VARCHAR(MAX), [" ++ col ++ "], 1) AS [" ++ col ++ "]") ∧
    (pyLower dtype ∈ castFamilyTypes →
      wrap_column_expr col dtype =
        "CAST([" ++ col ++ "] AS NVARCHAR(MAX)) AS [" ++ col ++ "]") ∧
    (pyLower dtype ∉ binaryFamilyTypes → pyLower dtype ∉ castFamilyTypes →
      wrap_column_expr col dtype = "[" ++ col ++ "]") := by
  refine ⟨fun h => ?_, fun h => ?_, fun h1 h2 => ?_⟩
  · simp only [wrap_column_expr]
    rw [if_pos h]
  · simp only [wrap_column_expr]
    rw [if_neg (cast_not_binary h), if_pos h]
  · simp only [wrap_column_expr]
    rw [if_neg h1, if_neg h2]

/-- Witness for C1 at concrete inputs, one per branch. -/
theorem claim_C1_witness :
    wrap_column_expr "Photo" "VARBINARY" =
      "CONVERT(VARCHAR(MAX), [Photo], 1) AS [Photo]" ∧
    wrap_column_expr "Doc" "XML" = "CAST([Doc] AS NVARCHAR(MAX)) AS [Doc]" ∧
    wrap_column_expr "Id" "int" = "[Id]" :=
  ⟨(claim_C1 "Photo" "VARBINARY").1 (by decide),
   (claim_C1 "Doc" "XML").2.1 (by decide),
   (claim_C1 "Id" "int").2.2 (by decide) (by decide)⟩

/-- C2: `mssql_to_sf_type` is total (a Lean function, it returns on every
string without failing), deterministic, and case-insensitive: the result on
`s` equals the result on the lower-cased `s`; and whenever the normalized
(lower-cased) form of `s` is not a key of the fixed mapping table, the result
is the fallback string type VARCHAR. -/
theorem claim_C2 (s : String) :
    mssql_to_sf_type s = mssql_to_sf_type (pyLower s) ∧
    (sfTypeMapping.lookup (pyLower s) = none → mssql_to_sf_type s = "VARCHAR") := by
  constructor
  · unfold mssql_to_sf_type
    rw [pyLower_idem]
  · intro h
    unfold mssql_to_sf_type
    rw [h]
    rfl

/-- Witness for C2: the mapType INT = mapType int example from the spec, and
the fallback on an unknown type. -/
theorem claim_C2_witness :
    mssql_to_sf_type "INT" = mssql_to_sf_type (pyLower "INT") ∧
    mssql_to_sf_type "INT" = "NUMBER" ∧
    sfTypeMapping.lookup (pyLower "geojson") = none ∧
    mssql_to_sf_type "geojson" = "VARCHAR" :=
  ⟨(claim_C2 "INT").1, by decide, by decide, (claim_C2 "geojson").2 (by decide)⟩

/-- C3 counterexample: the claim quotes the generated DDL as a single-line
statement, but the code joins column definitions with `,\n  ` and wraps them
in `(\n  ... \n)`, so the generated string differs from the quoted one. -/
theorem claim_C3_counterexample :
    ddlFor "SCH" "Customers" customersCols ≠
      "CREATE OR REPLACE TABLE SCH.\"STG_ADW_Customers\" (\"CustomerID\" NUMBER, \"Name\" VARCHAR, \"Photo\" VARCHAR);" := by
  decide

/-- C3 (amended): for the Customers column metadata
[(CustomerID, int), (Name, nvarchar), (Photo, varbinary)], the translator
produces the DDL `CREATE OR REPLACE TABLE SCH."STG_ADW_Customers"` with the
three columns typed NUMBER, VARCHAR, VARCHAR in metadata order — laid out
with the code's newline-and-two-space separators rather than single spaces —
and a projection query selecting exactly
`[CustomerID], [Name], CONVERT(VARCHAR(MAX), [Photo], 1) AS [Photo]`. -/
theorem claim_C3 :
    ddlFor "SCH" "Customers" customersCols =
      "CREATE OR REPLACE TABLE SCH.\"STG_ADW_Customers\" (\n  \"CustomerID\" NUMBER,\n  \"Name\" VARCHAR,\n  \"Photo\" VARCHAR\n);" ∧
    customersCols.map (fun c => mssql_to_sf_type c.DATA_TYPE) =
      ["NUMBER", "VARCHAR", "VARCHAR"] ∧
    colExprs customersCols =
      ["[CustomerID]", "[Name]", "CONVERT(VARCHAR(MAX), [Photo], 1) AS [Photo]"] ∧
    selectFor "dbo" "Customers" customersCols =
      "SELECT [CustomerID], [Name], CONVERT(VARCHAR(MAX), [Photo], 1) AS [Photo] FROM [dbo].[Customers]" := by
  refine ⟨by decide, by decide, by decide, by decide⟩

/-- C7: for every ordered column metadata list, the DDL column definitions
and the projection expressions are column-consistent: both lists have exactly
one entry per metadata column (hence agree on the column count), and at every
index the DDL defines the metadata column's name while the projection
expression is aliased to that same name. -/
theorem claim_C7 (cols : List Col) (i : Nat) (hi : i < cols.length) :
    (columnDefs cols).length = cols.length ∧
    (colExprs cols).length = cols.length ∧
    ∃ c, cols[i]? = some c ∧
      (columnDefs cols)[i]? =
        some ("\"" ++ c.COLUMN_NAME ++ "\" " ++ mssql_to_sf_type c.DATA_TYPE) ∧
      (colExprs cols)[i]? = some (wrap_column_expr c.COLUMN_NAME c.DATA_TYPE) ∧
      hasAlias (wrap_column_expr c.COLUMN_NAME c.DATA_TYPE) c.COLUMN_NAME := by
  refine ⟨by simp [columnDefs], by simp [colExprs], cols[i], ?_, ?_, ?_,
    hasAlias_wrap _ _⟩
  · exact List.getElem?_eq_getElem hi
  · simp [columnDefs, List.getElem?_map, List.getElem?_eq_getElem hi]
  · simp [colExprs, List.getElem?_map, List.getElem?_eq_getElem hi]

/-- Witness for C7 on the Customers metadata at index 2 (the varbinary
column). -/
theorem claim_C7_witness :
    (columnDefs customersCols).length = customersCols.length ∧
    (colExprs customersCols).length = customersCols.length ∧
    ∃ c, customersCols[2]? = some c ∧
      (columnDefs customersCols)[2]? =
        some ("\"" ++ c.COLUMN_NAME ++ "\" " ++ mssql_to_sf_type c.DATA_TYPE) ∧
      (colExprs customersCols)[2]? =
        some (wrap_column_expr c.COLUMN_NAME c.DATA_TYPE) ∧
      hasAlias (wrap_column_expr c.COLUMN_NAME c.DATA_TYPE) c.COLUMN_NAME :=
  claim_C7 customersCols 2 (by decide)

/-- C9: the destination table name depends only on the source table name:
two discovered tables with equal `tableName` get identical per-table DDL (for
the same column metadata) and an identical COPY load target
`DB.SCH."STG_ADW_<tableName>"`, even when their schema names differ — while
their exported parquet paths, which embed the schema name, remain distinct. -/
theorem claim_C9 (db sch : String) (cols : List Col) (t1 t2 : TableId)
    (ht : t1.tableName = t2.tableName) :
    ddlFor sch t1.tableName cols = ddlFor sch t2.tableName cols ∧
    fullTableName db sch t1 = fullTableName db sch t2 ∧
    (t1.schemaName ≠ t2.schemaName → tablePath t1 ≠ tablePath t2) := by
  refine ⟨by rw [ht], ?_, fun hs hp => hs (tablePath_inj ht hp)⟩
  unfold fullTableName
  rw [ht]

/-- Witness for C9: `dbo.Customers` and `sales.Customers` share one load
target but have distinct parquet paths. -/
theorem claim_C9_witness :
    fullTableName "DB" "SCH" ⟨"dbo", "Customers"⟩ =
      fullTableName "DB" "SCH" ⟨"sales", "Customers"⟩ ∧
    tablePath ⟨"dbo", "Customers"⟩ ≠ tablePath ⟨"sales", "Customers"⟩ :=
  ⟨(claim_C9 "DB" "SCH" [] ⟨"dbo", "Customers"⟩ ⟨"sales", "Customers"⟩ rfl).2.1,
   (claim_C9 "DB" "SCH" [] ⟨"dbo", "Customers"⟩ ⟨"sales", "Customers"⟩ rfl).2.2
     (by decide)⟩

/-- C10: whenever `wrap_column_expr` returns a non-identity expression (the
hex-encoding branch or the wide-string-cast branch), `mssql_to_sf_type` maps
that same source type to VARCHAR, so every hex-encoded or text-cast column is
declared as a string column in the destination DDL. -/
theorem claim_C10 (col dtype : String)
    (h : wrap_column_expr col dtype ≠ "[" ++ col ++ "]") :
    mssql_to_sf_type dtype = "VARCHAR" := by
  by_cases hb : pyLower dtype ∈ binaryFamilyTypes
  · exact lookup_family_varchar (Or.inl hb)
  · by_cases hc : pyLower dtype ∈ castFamilyTypes
    · exact lookup_family_varchar (Or.inr hc)
    · exfalso
      apply h
      simp only [wrap_column_expr]
      rw [if_neg hb, if_neg hc]

/-- Witness for C10 at the varbinary Photo column. -/
theorem claim_C10_witness :
    wrap_column_expr "Photo" "varbinary" ≠ "[" ++ "Photo" ++ "]" ∧
    mssql_to_sf_type "varbinary" = "VARCHAR" :=
  ⟨by decide, claim_C10 "Photo" "varbinary" (by decide)⟩

/-- C4: whenever the exported row set's column names contain a repeat, the
Table Exporter emits a warning that names the duplicated columns (a nonempty
list) and it does so before the file write, which still happens: the export
event sequence is exactly the warning followed by the parquet write. -/
theorem claim_C4 (names : List String) (path : String) (h : ¬ names.Nodup) :
    dupCols names ≠ [] ∧
    exportEvents names path =
      [ExportEvent.warnDuplicates (dupCols names),
       ExportEvent.writeParquet path] := by
  have hne := dupCols_ne_nil h
  refine ⟨hne, ?_⟩
  unfold exportEvents
  rw [if_neg hne]
  rfl

/-- Witness for C4: two columns both named x. -/
theorem claim_C4_witness :
    dupCols ["x", "x"] ≠ [] ∧
    exportEvents ["x", "x"] "dbo_T.parquet" =
      [ExportEvent.warnDuplicates (dupCols ["x", "x"]),
       ExportEvent.writeParquet "dbo_T.parquet"] :=
  claim_C4 ["x", "x"] "dbo_T.parquet" (by decide)

/-- C5 (code bug): the per-table export loop has no exception guard, so when
table B's export fails in the set {A, B}, the run crashes at B: table A was
exported, but its DDL is never issued, its file is never staged or loaded,
and the connections are never closed — the run does not continue past the
failure as the claim states. -/
theorem claim_C5 :
    run envC5 = [Ev.mssqlConnected, Ev.exported "dbo" "A",
      Ev.exportRaised "dbo" "B", Ev.crashed] ∧
    Ev.ddlExecuted (ddlFor "SCH" "A" []) ∉ run envC5 ∧
    Ev.putDone "dbo_A.parquet" ∉ run envC5 ∧
    Ev.copyDone (fullTableName "DB" "SCH" ⟨"dbo", "A"⟩) ∉ run envC5 := by
  decide

/-- C6 (code bug): `sf_cursor.execute(ddl)` in the DDL loop is unwrapped, so
when table A's DDL fails, the run crashes: table B's DDL is never issued and
the load phase is never reached, contradicting the claimed per-table DDL
fault isolation. -/
theorem claim_C6 :
    run envC6 = [Ev.mssqlConnected, Ev.exported "dbo" "A",
      Ev.exported "dbo" "B", Ev.sfConnected,
      Ev.ddlRaised (ddlFor "SCH" "A" []), Ev.crashed] ∧
    Ev.ddlExecuted (ddlFor "SCH" "B" []) ∉ run envC6 ∧
    Ev.putDone "dbo_B.parquet" ∉ run envC6 := by
  decide

/-- C8 (code bug): when the Snowflake connection fails after the MSSQL
connection was already opened, the script exits with status 1 without
explicitly closing the MSSQL connection: no close event appears on that exit
path, contradicting the claimed release on all exit paths. -/
theorem claim_C8 :
    run envC8 = [Ev.mssqlConnected, Ev.exported "dbo" "A",
      Ev.sfConnectFailed, Ev.exitNonzero] ∧
    Ev.mssqlClosed ∉ run envC8 := by
  decide
